import Mathlib

/-!
Shallow embedding of `crates/core/src/storage/mod.rs` (delta-rs storage
abstraction layer): outcome types, option parsing, decorator handlers,
object-store registry, commit-path naming, and the runtime-isolation
wrapper, together with theorems settling the specification claims.
-/

/-- Outcome of running a fallible Rust computation: a normal `Ok` value,
a normal `Err` value, or a panic (e.g. `Result::unwrap` on `Err`). -/
inductive RustOutcome (ε α : Type) where
  | ok : α → RustOutcome ε α
  | err : ε → RustOutcome ε α
  | panicked : RustOutcome ε α
deriving DecidableEq, Repr

/-- Model of `DeltaTableError` restricted to the variants produced in
`storage/mod.rs`: `InvalidTableLocation`, `Generic`, and errors converted
from `object_store` errors by the `?` operator. -/
inductive DeltaTableError where
  | invalidTableLocation : String → DeltaTableError
  | generic : String → DeltaTableError
  | objectStore : String → DeltaTableError
deriving DecidableEq, Repr

/-- Model of `StorageOptions` (a `HashMap<String, String>`): an association
list with at most one binding per key in any reachable value; lookup takes
the first binding. -/
abbrev StorageOptions := List (String × String)

/-- Numeric value of an ASCII decimal digit character, `none` otherwise. -/
def asciiDigitVal (c : Char) : Option Nat :=
  if '0' ≤ c ∧ c ≤ '9' then some (c.toNat - '0'.toNat) else none

/-- Largest value of Rust `usize` on a 64-bit target. -/
def USIZE_MAX : Nat := 2 ^ 64 - 1

/-- Digit-accumulation loop of Rust `usize::from_str`: per character, first
the digit is validated, then the accumulator is scaled and the digit added
with an overflow check; messages are the `Display` forms of
`ParseIntError`. -/
def parseDigitsLoop : List Char → Nat → Except String Nat
  | [], acc => .ok acc
  | c :: rest, acc =>
    match asciiDigitVal c with
    | none => .error "invalid digit found in string"
    | some d =>
      if acc * 10 + d ≤ USIZE_MAX then parseDigitsLoop rest (acc * 10 + d)
      else .error "number too large to fit in target type"

/-- Model of Rust `str::parse::<usize>` with `ParseIntError` rendered via
its `Display` implementation (this is what `e.to_string()` produces in the
source): empty input, a lone sign, a non-digit character, and overflow
each fail with the corresponding message; a leading `+` is accepted. -/
def parseUsizeE (s : String) : Except String Nat :=
  match s.data with
  | [] => .error "cannot parse integer from empty string"
  | '+' :: rest =>
    if rest = [] then .error "invalid digit found in string"
    else parseDigitsLoop rest 0
  | l => parseDigitsLoop l 0

/-- Model of `v.parse::<usize>().ok()` as used by `limit_store_handler`. -/
def parseUsize (s : String) : Option Nat :=
  (parseUsizeE s).toOption

/-- Split a character list on `'/'` delimiters (structural recursion, so
the kernel can evaluate it). -/
def splitOnSlash : List Char → List (List Char)
  | [] => [[]]
  | c :: rest =>
    match splitOnSlash rest with
    | [] => [[]]
    | cur :: parts => if c = '/' then [] :: cur :: parts else (c :: cur) :: parts

/-- Join segments with `'/'` delimiters. -/
def joinSlash : List (List Char) → List Char
  | [] => []
  | [p] => p
  | p :: q :: rest => p ++ '/' :: joinSlash (q :: rest)

/-- Model of `Path::from`: split on the delimiter and drop empty segments,
so `Path::from("/")` is the empty (root) path. Percent-encoding is not
modelled; none of the inputs in this file require it. -/
def pathFromString (s : String) : String :=
  String.mk (joinSlash ((splitOnSlash s.data).filter (fun p => p ≠ [])))

/-- The `storage_constants::OBJECT_STORE_CONCURRENCY_LIMIT` key. -/
def OBJECT_STORE_CONCURRENCY_LIMIT : String := "OBJECT_STORE_CONCURRENCY_LIMIT"

/-- Base (undecorated) stores constructed by `DefaultObjectStoreFactory`:
`InMemory::new()` and `LocalFileSystem::new_with_prefix(p)`. -/
inductive BaseStore where
  | inMemory : BaseStore
  | localFS : String → BaseStore
deriving DecidableEq, Repr

/-- An object store over base stores `σ`, tracking the decorator layers
(`PrefixStore`, `LimitStore`) wrapped around a base store. An undecorated
value `base s` is "the unwrapped input" of the decorator handlers. -/
inductive ObjStore (σ : Type) where
  | base : σ → ObjStore σ
  | prefixed : ObjStore σ → String → ObjStore σ
  | limited : ObjStore σ → Nat → ObjStore σ
deriving DecidableEq, Repr

/-- Model of `url_prefix_handler`: wrap in a `PrefixStore` unless the
prefix is `Path::from("/")` (the root path), in which case the store is
returned unwrapped. -/
def url_prefix_handler {σ : Type} (store : ObjStore σ) (pfx : String) : ObjStore σ :=
  if pfx ≠ pathFromString "/" then .prefixed store pfx else store

/-- Model of `limit_store_handler`: wrap in a `LimitStore` when the
`OBJECT_STORE_CONCURRENCY_LIMIT` option is present and parses as a
`usize`; otherwise return the store unwrapped. -/
def limit_store_handler {σ : Type} (store : ObjStore σ) (options : StorageOptions) : ObjStore σ :=
  match (List.lookup OBJECT_STORE_CONCURRENCY_LIMIT options).bind parseUsize with
  | some n => .limited store n
  | none => store

/-- Model of `str_is_truthy`'s byte-wise ASCII lowering
(`eq_ignore_ascii_case` only folds the ASCII uppercase range). -/
def asciiLower (c : Char) : Char :=
  if 'A' ≤ c ∧ c ≤ 'Z' then Char.ofNat (c.toNat + 32) else c

/-- Model of Rust `str::eq_ignore_ascii_case`: equality after ASCII
case-folding both sides (equivalent to Rust's length check plus per-byte
case-insensitive comparison, since folding preserves length). -/
def eqIgnoreAsciiCase (a b : String) : Bool :=
  a.data.map asciiLower == b.data.map asciiLower

/-- Model of `str_is_truthy`. -/
def str_is_truthy (val : String) : Bool :=
  eqIgnoreAsciiCase val "1" || eqIgnoreAsciiCase val "true" ||
    eqIgnoreAsciiCase val "on" || eqIgnoreAsciiCase val "yes" ||
    eqIgnoreAsciiCase val "y"

/-- Model of the `DELTA_LOG_PATH` static (`Path::from("_delta_log")`). -/
def DELTA_LOG_PATH : String := "_delta_log"

/-- Fuel-driven digit extraction: decimal digit characters of `n`, most
significant first (`[]` for `n = 0`); the fuel only bounds recursion depth
and `n` itself is always enough fuel. -/
def digitCharsAux : Nat → Nat → List Char
  | 0, _ => []
  | fuel + 1, n =>
    if n = 0 then [] else digitCharsAux fuel (n / 10) ++ [Nat.digitChar (n % 10)]

/-- Decimal digit characters of `n`, most significant first. -/
def digitChars (n : Nat) : List Char :=
  digitCharsAux n n

/-- Decimal rendering of a natural number, as Rust `Display` renders it. -/
def natRepr (n : Nat) : String :=
  if n = 0 then "0" else String.mk (digitChars n)

/-- Pad a string on the left with `'0'` up to width `w` (no-op when the
string is already at least `w` long). -/
def leftPadZeros (w : Nat) (s : String) : String :=
  String.mk (List.replicate (w - s.length) '0') ++ s

/-- Model of Rust `format!("{v:020}")` for `v : i64`: sign-aware zero
padding to a total width of 20 characters, the sign counting toward the
width. -/
def fmtInt20 (v : Int) : String :=
  if v < 0 then "-" ++ leftPadZeros 19 (natRepr (-v).toNat)
  else leftPadZeros 20 (natRepr v.toNat)

/-- Model of `commit_uri_from_version`: `DELTA_LOG_PATH.child(format!("{version:020}.json"))`. -/
def commit_uri_from_version (version : Int) : String :=
  DELTA_LOG_PATH ++ "/" ++ (fmtInt20 version ++ ".json")

/-- Model of `RetryConfig` with the five fields touched by
`parse_retry_config`; durations (`Dur`) and the floating-point backoff
base (`Flt`) are abstract, since their values come from external crates
(`humantime`, `f64`). -/
structure RetryConfig (Dur Flt : Type) where
  max_retries : Nat
  retry_timeout : Dur
  init_backoff : Dur
  max_backoff : Dur
  base : Flt
deriving DecidableEq, Repr

/-- Model of the `max_retries` step of `parse_retry_config`: a present
value is parsed as `usize` and a failure is reported through the
`ParseIntError` display string (the source's `e.to_string()`). -/
def parseNumField (dfltv : Nat) (options : StorageOptions) (key : String) : Except String Nat :=
  match List.lookup key options with
  | some v => parseUsizeE v
  | none => .ok dfltv

/-- Model of a duration step of `parse_retry_config`: a present value is
fed to `humantime::parse_duration` (abstracted as `parseDur`) and failure
is reported as the source's formatted message quoting the raw value. -/
def parseDurField {Dur : Type} (parseDur : String → Option Dur) (dfltv : Dur)
    (options : StorageOptions) (key : String) : Except String Dur :=
  match List.lookup key options with
  | some v =>
    match parseDur v with
    | some d => .ok d
    | none => .error ("failed to parse \"" ++ v ++ "\" as Duration")
  | none => .ok dfltv

/-- Display text of Rust `ParseFloatError` for a failed
`str::parse::<f64>` of `v`: the `Empty` kind (produced exactly when the
input is the empty string) displays "cannot parse float from empty
string", and the `Invalid` kind displays "invalid float literal". -/
def parseFloatErrMsg (v : String) : String :=
  if v = "" then "cannot parse float from empty string" else "invalid float literal"

/-- Model of the `backoff_config.base` step of `parse_retry_config`: a
present value is parsed as `f64` (value abstracted as `parseFlt`); a
failure is reported through the `ParseFloatError` display string (the
source's `e.to_string()`), which depends on whether the input was
empty. -/
def parseFltField {Flt : Type} (parseFlt : String → Option Flt) (dfltv : Flt)
    (options : StorageOptions) : Except String Flt :=
  match List.lookup "backoff_config.base" options with
  | some v =>
    match parseFlt v with
    | some f => .ok f
    | none => .error (parseFloatErrMsg v)
  | none => .ok dfltv

/-- Model of `RetryConfigParse::parse_retry_config`: starting from
`RetryConfig::default()` (`dflt`), the five recognized keys are examined
in source order with early return on the first parse failure. -/
def parse_retry_config {Dur Flt : Type} (parseDur : String → Option Dur)
    (parseFlt : String → Option Flt) (dflt : RetryConfig Dur Flt)
    (options : StorageOptions) : Except String (RetryConfig Dur Flt) :=
  match parseNumField dflt.max_retries options "max_retries" with
  | .error e => .error e
  | .ok mr =>
    match parseDurField parseDur dflt.retry_timeout options "retry_timeout" with
    | .error e => .error e
    | .ok rt =>
      match parseDurField parseDur dflt.init_backoff options "backoff_config.init_backoff" with
      | .error e => .error e
      | .ok ib =>
        match parseDurField parseDur dflt.max_backoff options "backoff_config.max_backoff" with
        | .error e => .error e
        | .ok mb =>
          match parseFltField parseFlt dflt.base options with
          | .error e => .error e
          | .ok bs => .ok ⟨mr, rt, ib, mb, bs⟩

/-- Model of a `url::Url` restricted to the components `parse_url_opts`
consumes: the scheme, the host, the (still percent-encoded) path, and the
full serialized form (`Url::to_string` / `Into<String>`). -/
structure Url where
  scheme : String
  host : String
  path : String
  full : String
deriving DecidableEq, Repr

/-- Model of `url::Url::to_file_path` on a Unix target (from the `url`
crate's documented behavior): the conversion fails unless the host is
empty or `localhost`; on success the URL path is decoded into a
filesystem path (decoding not modelled, inputs here need none). -/
def toFilePathModel (u : Url) : Option String :=
  if u.host = "" ∨ u.host = "localhost" then some u.path else none

/-- Model of `DefaultObjectStoreFactory::parse_url_opts`. The external
constructors are abstracted: `fromUrlPath` models `Path::from_url_path`
and `newWithPfx` models `LocalFileSystem::new_with_prefix` (returning the
canonicalized root on success). The `file` arm calls
`url.to_file_path().unwrap()`, so a failed conversion panics. -/
def parse_url_opts (toFilePath : Url → Option String)
    (newWithPfx : String → Except String String)
    (fromUrlPath : String → Except String String)
    (url : Url) (options : StorageOptions) :
    RustOutcome DeltaTableError (ObjStore BaseStore × String) :=
  if url.scheme = "memory" then
    match fromUrlPath url.path with
    | .error e => .err (.objectStore e)
    | .ok p =>
      let store := limit_store_handler (url_prefix_handler (.base .inMemory) p) options
      .ok (store, p)
  else if url.scheme = "file" then
    match toFilePath url with
    | none => .panicked
    | some fp =>
      match newWithPfx fp with
      | .error e => .err (.objectStore e)
      | .ok canon =>
        let store := limit_store_handler (ObjStore.base (.localFS canon)) options
        .ok (store, pathFromString "/")
  else .err (.invalidTableLocation url.full)

/-- Trivial model of `LocalFileSystem::new_with_prefix` that accepts every
path, used to instantiate `parse_url_opts` at concrete inputs. -/
def newWithPfxModel (p : String) : Except String String := .ok p

/-- Model of `Path::from_url_path` for inputs that need no
percent-decoding: normalize like `Path::from`. -/
def fromUrlPathModel (p : String) : Except String String := .ok (pathFromString p)

/-- Concrete `file://` URL whose host is a remote machine, so
`to_file_path` fails on a Unix target. -/
def fileHostUrl : Url :=
  ⟨"file", "remote-host", "/tmp/table", "file://remote-host/tmp/table"⟩

/-- Concrete URL with a scheme the default factory does not recognize. -/
def otherSchemeUrl : Url := ⟨"s3", "bucket", "/table", "s3://bucket/table"⟩

/-- Insertion into the association-list model of `DashMap<String, _>`:
replace the binding for `k` if present, append otherwise. -/
def insertAssoc {σ : Type} : List (String × σ) → String → σ → List (String × σ)
  | [], k, v => [(k, v)]
  | (k', v') :: rest, k, v =>
    if k' = k then (k, v) :: rest else (k', v') :: insertAssoc rest k v

/-- Model of `DefaultObjectStoreRegistry::register_store`
(`DashMap::insert` keyed by `url.to_string()`): returns the displaced
previous value and the updated registry state. -/
def register_store {σ : Type} (reg : List (String × σ)) (url : String) (store : σ) :
    Option σ × List (String × σ) :=
  (List.lookup url reg, insertAssoc reg url store)

/-- Model of `DefaultObjectStoreRegistry::get_store`: a pure lookup that
returns the registry state it read from unchanged (the source method only
reads through `&self`). -/
def get_store {σ : Type} (reg : List (String × σ)) (url : String) :
    RustOutcome DeltaTableError σ × List (String × σ) :=
  (match List.lookup url reg with
   | some s => .ok s
   | none =>
     .err (.generic ("No suitable object store found for " ++ url ++
       ". See `RuntimeEnv::register_object_store`")), reg)

/-- Bundle of the abstract payload/result types of the `ObjectStore`
trait, so `InnerStore` can model the trait generically. -/
structure OpTypes where
  P : Type
  PL : Type
  PO : Type
  PR : Type
  GO : Type
  GR : Type
  BY : Type
  OM : Type
  LR : Type
  MU : Type
  MO : Type
  ST : Type
  E : Type

/-- Model of an arbitrary inner `ObjectStore`: each trait method is an
abstract function; fallible methods can complete normally, fail, or
panic, and the three listing methods yield a lazy stream value `ST`
directly (not a `Result`), as in the trait. -/
structure InnerStore (τ : OpTypes) where
  put : τ.P → τ.PL → RustOutcome τ.E τ.PR
  put_opts : τ.P → τ.PL → τ.PO → RustOutcome τ.E τ.PR
  get : τ.P → RustOutcome τ.E τ.GR
  get_opts : τ.P → τ.GO → RustOutcome τ.E τ.GR
  get_range : τ.P → Nat × Nat → RustOutcome τ.E τ.BY
  head : τ.P → RustOutcome τ.E τ.OM
  delete : τ.P → RustOutcome τ.E Unit
  list : Option τ.P → τ.ST
  list_with_offset : Option τ.P → τ.P → τ.ST
  list_with_delimiter : Option τ.P → RustOutcome τ.E τ.LR
  copy : τ.P → τ.P → RustOutcome τ.E Unit
  copy_if_not_exists : τ.P → τ.P → RustOutcome τ.E Unit
  rename_if_not_exists : τ.P → τ.P → RustOutcome τ.E Unit
  put_multipart : τ.P → RustOutcome τ.E τ.MU
  put_multipart_opts : τ.P → τ.MO → RustOutcome τ.E τ.MU

/-- Model of `DeltaIOStorageBackend`: the shared inner store (the runtime
handle carries no semantic state under run-to-completion semantics). -/
structure DeltaIOStorageBackend (τ : OpTypes) where
  inner : InnerStore τ

/-- Join of a spawned task under run-to-completion semantics, modelling
the `unwrap_or_else` in `spawn_io_rt`: a panicking task is re-raised in
the caller via `resume_unwind` (so the outcome stays `panicked`), and a
normal completion passes through; the `JoinError` branch only fires when
the task is cancelled externally, which cannot happen once the task runs
to completion. -/
def joinOutcome {ε α : Type} : RustOutcome ε α → RustOutcome ε α
  | .panicked => .panicked
  | r => r

/-- Model of `DeltaIOStorageBackend::spawn_io_rt`: clone the store handle
and path, run the closure as one unit of work on the isolated runtime,
and join. The second component instruments the model with the number of
units of work dispatched onto the isolated runtime (always 1 here). -/
def spawn_io_rt {τ : OpTypes} {O : Type}
    (f : InnerStore τ → τ.P → RustOutcome τ.E O)
    (store : InnerStore τ) (path : τ.P) : RustOutcome τ.E O × Nat :=
  (joinOutcome (f store path), 1)

/-- Model of `DeltaIOStorageBackend::spawn_io_rt_from_to`: as
`spawn_io_rt` but the unit of work owns two cloned paths. -/
def spawn_io_rt_from_to {τ : OpTypes} {O : Type}
    (f : InnerStore τ → τ.P → τ.P → RustOutcome τ.E O)
    (store : InnerStore τ) (src dst : τ.P) : RustOutcome τ.E O × Nat :=
  (joinOutcome (f store src dst), 1)

/-- The `put` method of the wrapper (dispatched via `spawn_io_rt`). -/
def DeltaIOStorageBackend.put {τ : OpTypes} (b : DeltaIOStorageBackend τ)
    (location : τ.P) (bytes : τ.PL) : RustOutcome τ.E τ.PR × Nat :=
  spawn_io_rt (fun store path => store.put path bytes) b.inner location

/-- The `put_opts` method of the wrapper (dispatched via `spawn_io_rt`). -/
def DeltaIOStorageBackend.put_opts {τ : OpTypes} (b : DeltaIOStorageBackend τ)
    (location : τ.P) (bytes : τ.PL) (options : τ.PO) : RustOutcome τ.E τ.PR × Nat :=
  spawn_io_rt (fun store path => store.put_opts path bytes options) b.inner location

/-- The `get` method of the wrapper (dispatched via `spawn_io_rt`). -/
def DeltaIOStorageBackend.get {τ : OpTypes} (b : DeltaIOStorageBackend τ)
    (location : τ.P) : RustOutcome τ.E τ.GR × Nat :=
  spawn_io_rt (fun store path => store.get path) b.inner location

/-- The `get_opts` method of the wrapper (dispatched via `spawn_io_rt`). -/
def DeltaIOStorageBackend.get_opts {τ : OpTypes} (b : DeltaIOStorageBackend τ)
    (location : τ.P) (options : τ.GO) : RustOutcome τ.E τ.GR × Nat :=
  spawn_io_rt (fun store path => store.get_opts path options) b.inner location

/-- The `get_range` method of the wrapper (dispatched via `spawn_io_rt`). -/
def DeltaIOStorageBackend.get_range {τ : OpTypes} (b : DeltaIOStorageBackend τ)
    (location : τ.P) (range : Nat × Nat) : RustOutcome τ.E τ.BY × Nat :=
  spawn_io_rt (fun store path => store.get_range path range) b.inner location

/-- The `head` method of the wrapper (dispatched via `spawn_io_rt`). -/
def DeltaIOStorageBackend.head {τ : OpTypes} (b : DeltaIOStorageBackend τ)
    (location : τ.P) : RustOutcome τ.E τ.OM × Nat :=
  spawn_io_rt (fun store path => store.head path) b.inner location

/-- The `delete` method of the wrapper (dispatched via `spawn_io_rt`). -/
def DeltaIOStorageBackend.delete {τ : OpTypes} (b : DeltaIOStorageBackend τ)
    (location : τ.P) : RustOutcome τ.E Unit × Nat :=
  spawn_io_rt (fun store path => store.delete path) b.inner location

/-- The `list` method of the wrapper: delegated directly to the inner
store on the caller's context, with no unit of work dispatched onto the
isolated runtime (count 0). -/
def DeltaIOStorageBackend.list {τ : OpTypes} (b : DeltaIOStorageBackend τ)
    (pfx : Option τ.P) : τ.ST × Nat :=
  (b.inner.list pfx, 0)

/-- The `list_with_offset` method of the wrapper: direct delegation. -/
def DeltaIOStorageBackend.list_with_offset {τ : OpTypes} (b : DeltaIOStorageBackend τ)
    (pfx : Option τ.P) (offset : τ.P) : τ.ST × Nat :=
  (b.inner.list_with_offset pfx offset, 0)

/-- The `list_with_delimiter` method of the wrapper: direct delegation. -/
def DeltaIOStorageBackend.list_with_delimiter {τ : OpTypes} (b : DeltaIOStorageBackend τ)
    (pfx : Option τ.P) : RustOutcome τ.E τ.LR × Nat :=
  (b.inner.list_with_delimiter pfx, 0)

/-- The `copy` method of the wrapper (dispatched via `spawn_io_rt_from_to`). -/
def DeltaIOStorageBackend.copy {τ : OpTypes} (b : DeltaIOStorageBackend τ)
    (src dst : τ.P) : RustOutcome τ.E Unit × Nat :=
  spawn_io_rt_from_to (fun store from_path to_path => store.copy from_path to_path) b.inner src dst

/-- The `copy_if_not_exists` method of the wrapper (dispatched via
`spawn_io_rt_from_to`). -/
def DeltaIOStorageBackend.copy_if_not_exists {τ : OpTypes} (b : DeltaIOStorageBackend τ)
    (src dst : τ.P) : RustOutcome τ.E Unit × Nat :=
  spawn_io_rt_from_to (fun store from_path to_path => store.copy_if_not_exists from_path to_path)
    b.inner src dst

/-- The `rename_if_not_exists` method of the wrapper (dispatched via
`spawn_io_rt_from_to`). -/
def DeltaIOStorageBackend.rename_if_not_exists {τ : OpTypes} (b : DeltaIOStorageBackend τ)
    (src dst : τ.P) : RustOutcome τ.E Unit × Nat :=
  spawn_io_rt_from_to (fun store from_path to_path => store.rename_if_not_exists from_path to_path)
    b.inner src dst

/-- The `put_multipart` method of the wrapper (dispatched via `spawn_io_rt`). -/
def DeltaIOStorageBackend.put_multipart {τ : OpTypes} (b : DeltaIOStorageBackend τ)
    (location : τ.P) : RustOutcome τ.E τ.MU × Nat :=
  spawn_io_rt (fun store path => store.put_multipart path) b.inner location

/-- The `put_multipart_opts` method of the wrapper (dispatched via
`spawn_io_rt`). -/
def DeltaIOStorageBackend.put_multipart_opts {τ : OpTypes} (b : DeltaIOStorageBackend τ)
    (location : τ.P) (options : τ.MO) : RustOutcome τ.E τ.MU × Nat :=
  spawn_io_rt (fun store path => store.put_multipart_opts path options) b.inner location


/-- Lookup after insertion into the association-list map model finds the
inserted value. -/
theorem lookup_insertAssoc_self {σ : Type} (l : List (String × σ)) (k : String) (v : σ) :
    List.lookup k (insertAssoc l k v) = some v := by
  induction l with
  | nil => simp [insertAssoc, List.lookup]
  | cons hd tl ih =>
    obtain ⟨k', v'⟩ := hd
    by_cases h : k' = k
    · simp [insertAssoc, h, List.lookup]
    · have hne : ¬ k = k' := fun hc => h hc.symm
      have hbeq : (k == k') = false := beq_eq_false_iff_ne.mpr hne
      simp [insertAssoc, h, List.lookup, hbeq, ih]

/-- The join of a run-to-completion task is the task's own outcome. -/
theorem joinOutcome_eq {ε α : Type} (r : RustOutcome ε α) : joinOutcome r = r := by
  cases r <;> rfl

/-- A number below `10 ^ k` has at most `k` decimal digits. -/
theorem digitCharsAux_length_le (fuel : Nat) :
    ∀ (n k : Nat), n < 10 ^ k → (digitCharsAux fuel n).length ≤ k := by
  induction fuel with
  | zero => intro n k _; simp [digitCharsAux]
  | succ fuel ih =>
    intro n k h
    by_cases hn : n = 0
    · simp [digitCharsAux, hn]
    · have hk : k ≠ 0 := by
        rintro rfl
        simp at h
        omega
      obtain ⟨k', rfl⟩ : ∃ k', k = k' + 1 := ⟨k - 1, by omega⟩
      have hdiv : n / 10 < 10 ^ k' := by
        rw [Nat.div_lt_iff_lt_mul (by norm_num : 0 < 10)]
        calc n < 10 ^ (k' + 1) := h
          _ = 10 ^ k' * 10 := by ring
      simp only [digitCharsAux, hn, if_neg, ite_false, List.length_append, List.length_cons,
        List.length_nil]
      have := ih (n / 10) k' hdiv
      omega

/-- The character of a decimal digit is an ASCII digit. -/
theorem digitChar_isDigit_of_lt {d : Nat} (h : d < 10) : (Nat.digitChar d).isDigit = true := by
  interval_cases d <;> decide

/-- Every character produced by the digit extraction is an ASCII digit. -/
theorem digitCharsAux_digits (fuel : Nat) :
    ∀ (n : Nat), ∀ c ∈ digitCharsAux fuel n, c.isDigit = true := by
  induction fuel with
  | zero => intro n c hc; simp [digitCharsAux] at hc
  | succ fuel ih =>
    intro n c hc
    by_cases hn : n = 0
    · simp [digitCharsAux, hn] at hc
    · simp only [digitCharsAux, hn, ite_false, List.mem_append, List.mem_singleton] at hc
      rcases hc with h | h
      · exact ih _ _ h
      · subst h
        exact digitChar_isDigit_of_lt (Nat.mod_lt _ (by norm_num))

/-- The decimal rendering of `n < 10 ^ 19` is at most 19 characters. -/
theorem natRepr_length_le {n : Nat} (h : n < 10 ^ 19) : (natRepr n).length ≤ 19 := by
  by_cases hn : n = 0
  · simp only [natRepr, hn, ite_true]
    decide
  · simp only [natRepr, hn, ite_false, digitChars, String.length_mk]
    exact digitCharsAux_length_le n n 19 h

/-- Characters of the decimal rendering are ASCII digits. -/
theorem natRepr_digits (n : Nat) : ∀ c ∈ (natRepr n).data, c.isDigit = true := by
  by_cases hn : n = 0
  · simp [natRepr, hn]
  · simp only [natRepr, hn, ite_false, digitChars]
    exact digitCharsAux_digits n n

/-- Character data of a zero left-pad. -/
theorem leftPadZeros_data (w : Nat) (s : String) :
    (leftPadZeros w s).data = List.replicate (w - s.length) '0' ++ s.data := by
  show (String.mk (List.replicate (w - s.length) '0') ++ s).data = _
  rw [String.data_append]

/-- Length of a zero left-pad of a short-enough string. -/
theorem leftPadZeros_length {w : Nat} {s : String} (h : s.length ≤ w) :
    (leftPadZeros w s).length = w := by
  show (leftPadZeros w s).data.length = w
  rw [leftPadZeros_data, List.length_append, List.length_replicate]
  have hL : s.data.length = s.length := rfl
  omega

/-- Characters of a zero left-pad of an all-digit string are digits. -/
theorem leftPadZeros_digits {w : Nat} {s : String}
    (hs : ∀ c ∈ s.data, c.isDigit = true) :
    ∀ c ∈ (leftPadZeros w s).data, c.isDigit = true := by
  intro c hc
  rw [leftPadZeros_data] at hc
  rcases List.mem_append.1 hc with h | h
  · have := List.eq_of_mem_replicate h
    subst this
    decide
  · exact hs c h

/-- Unfolds `commit_uri_from_version` to the spec's canonical shape. -/
theorem commit_uri_eq (v : Int) :
    commit_uri_from_version v = "_delta_log/" ++ (fmtInt20 v ++ ".json") := by
  simp only [commit_uri_from_version, DELTA_LOG_PATH]
  rw [show ("_delta_log" : String) ++ "/" = "_delta_log/" from by decide]

/-- Claim C9: `str_is_truthy s` is true iff `s` case-insensitively equals
one of "1", "true", "on", "yes", "y"; every other string, including the
empty string, is falsy. -/
theorem str_is_truthy_spec (s : String) :
    (str_is_truthy s = true ↔
      (s.data.map asciiLower = "1".data ∨ s.data.map asciiLower = "true".data ∨
        s.data.map asciiLower = "on".data ∨ s.data.map asciiLower = "yes".data ∨
        s.data.map asciiLower = "y".data)) ∧
    str_is_truthy "" = false := by
  refine ⟨?_, by decide⟩
  have h1 : "1".data.map asciiLower = "1".data := by decide
  have h2 : "true".data.map asciiLower = "true".data := by decide
  have h3 : "on".data.map asciiLower = "on".data := by decide
  have h4 : "yes".data.map asciiLower = "yes".data := by decide
  have h5 : "y".data.map asciiLower = "y".data := by decide
  simp only [str_is_truthy, eqIgnoreAsciiCase, Bool.or_eq_true, beq_iff_eq, h1, h2, h3, h4, h5]
  tauto

/-- Claim C8: `url_prefix_handler` returns the input store unwrapped when
the prefix is the root path `Path::from("/")`, and wraps it in a
`PrefixStore` for every other prefix. -/
theorem url_prefix_handler_spec (σ : Type) (store : ObjStore σ) (pfx : String) :
    (pfx = pathFromString "/" → url_prefix_handler store pfx = store) ∧
    (pfx ≠ pathFromString "/" → url_prefix_handler store pfx = .prefixed store pfx) := by
  constructor
  · intro h
    simp [url_prefix_handler, h]
  · intro h
    simp [url_prefix_handler, h]

/-- Witness for C8: the root prefix is a no-op, a non-root prefix wraps. -/
theorem url_prefix_handler_spec_witness :
    url_prefix_handler (ObjStore.base BaseStore.inMemory) (pathFromString "/") =
      ObjStore.base BaseStore.inMemory ∧
    url_prefix_handler (ObjStore.base BaseStore.inMemory) "databases/foo" =
      ObjStore.prefixed (ObjStore.base BaseStore.inMemory) "databases/foo" :=
  ⟨(url_prefix_handler_spec BaseStore (ObjStore.base BaseStore.inMemory) (pathFromString "/")).1
      rfl,
    (url_prefix_handler_spec BaseStore (ObjStore.base BaseStore.inMemory) "databases/foo").2
      (by decide)⟩

/-- Counterexample to claim C2 as stated: the option value "0" is present
and does not denote a positive integer, yet `limit_store_handler` does
not return the unwrapped input — it wraps the store in a `LimitStore`
with limit 0 (Rust parses "0" as a valid `usize`). -/
theorem limit_store_handler_claim_cex :
    limit_store_handler (ObjStore.base BaseStore.inMemory)
        [(OBJECT_STORE_CONCURRENCY_LIMIT, "0")] =
      ObjStore.limited (ObjStore.base BaseStore.inMemory) 0 ∧
    ObjStore.limited (ObjStore.base BaseStore.inMemory) 0 ≠
      ObjStore.base BaseStore.inMemory := by
  constructor
  · decide
  · decide

/-- Claim C2 (amended): `limit_store_handler` wraps the input store in a
concurrency limit iff the `OBJECT_STORE_CONCURRENCY_LIMIT` value is
present and parses as a `usize` (a non-negative integer); when the key is
absent or the value fails to parse, the returned store is the unwrapped
input. -/
theorem limit_store_handler_amended (σ : Type) (store : ObjStore σ)
    (options : StorageOptions) :
    (∀ v n, List.lookup OBJECT_STORE_CONCURRENCY_LIMIT options = some v →
      parseUsize v = some n → limit_store_handler store options = .limited store n) ∧
    (List.lookup OBJECT_STORE_CONCURRENCY_LIMIT options = none →
      limit_store_handler store options = store) ∧
    (∀ v, List.lookup OBJECT_STORE_CONCURRENCY_LIMIT options = some v →
      parseUsize v = none → limit_store_handler store options = store) := by
  refine ⟨?_, ?_, ?_⟩
  · intro v n hv hn
    simp [limit_store_handler, hv, hn]
  · intro hv
    simp [limit_store_handler, hv]
  · intro v hv hn
    simp [limit_store_handler, hv, hn]

/-- Witness for C2 (amended): "500" is parsed and applied as the limit,
an absent key and an unparsable value leave the store unwrapped. -/
theorem limit_store_handler_amended_witness :
    limit_store_handler (ObjStore.base BaseStore.inMemory)
        [(OBJECT_STORE_CONCURRENCY_LIMIT, "500")] =
      ObjStore.limited (ObjStore.base BaseStore.inMemory) 500 ∧
    limit_store_handler (ObjStore.base BaseStore.inMemory) [] =
      ObjStore.base BaseStore.inMemory ∧
    limit_store_handler (ObjStore.base BaseStore.inMemory)
        [(OBJECT_STORE_CONCURRENCY_LIMIT, "abc")] =
      ObjStore.base BaseStore.inMemory :=
  ⟨(limit_store_handler_amended BaseStore (ObjStore.base BaseStore.inMemory)
      [(OBJECT_STORE_CONCURRENCY_LIMIT, "500")]).1 "500" 500 (by decide) (by decide),
    (limit_store_handler_amended BaseStore (ObjStore.base BaseStore.inMemory) []).2.1 rfl,
    (limit_store_handler_amended BaseStore (ObjStore.base BaseStore.inMemory)
      [(OBJECT_STORE_CONCURRENCY_LIMIT, "abc")]).2.2 "abc" (by decide) (by decide)⟩

/-- Claim C5: registering a store twice under the same URL returns `none`
from the first call (no prior entry) and the first store from the second
call, and a subsequent `get_store` returns the second store. -/
theorem register_store_spec (σ : Type) (reg : List (String × σ)) (u : String) (A B : σ)
    (h : List.lookup u reg = none) :
    (register_store reg u A).1 = none ∧
    (register_store (register_store reg u A).2 u B).1 = some A ∧
    (get_store (register_store (register_store reg u A).2 u B).2 u).1 = .ok B := by
  refine ⟨h, ?_, ?_⟩
  · show List.lookup u (insertAssoc reg u A) = some A
    exact lookup_insertAssoc_self reg u A
  · show (get_store (insertAssoc (insertAssoc reg u A) u B) u).1 = .ok B
    simp [get_store, lookup_insertAssoc_self]

/-- Witness for C5 at a concrete registry. -/
theorem register_store_spec_witness :
    (register_store ([] : List (String × Nat)) "memory://t" 0).1 = none ∧
    (register_store (register_store ([] : List (String × Nat)) "memory://t" 0).2
      "memory://t" 1).1 = some 0 ∧
    (get_store (register_store (register_store ([] : List (String × Nat)) "memory://t" 0).2
      "memory://t" 1).2 "memory://t").1 = .ok 1 :=
  register_store_spec Nat [] "memory://t" 0 1 rfl

/-- Claim C6: `get_store` on an unregistered URL fails with the
"no suitable object store found" error naming the URL, never panics, and
leaves the registry state unchanged (it is a pure read). -/
theorem get_store_spec (σ : Type) (reg : List (String × σ)) (u : String) :
    (get_store reg u).2 = reg ∧
    (get_store reg u).1 ≠ .panicked ∧
    (List.lookup u reg = none →
      (get_store reg u).1 = .err (.generic ("No suitable object store found for " ++ u ++
        ". See `RuntimeEnv::register_object_store`"))) := by
  refine ⟨rfl, ?_, ?_⟩
  · cases h : List.lookup u reg <;> simp [get_store, h]
  · intro h
    simp [get_store, h]

/-- Witness for C6 at a concrete unregistered URL. -/
theorem get_store_spec_witness :
    (get_store ([] : List (String × Nat)) "memory://missing").1 =
      .err (.generic ("No suitable object store found for " ++ "memory://missing" ++
        ". See `RuntimeEnv::register_object_store`")) :=
  (get_store_spec Nat [] "memory://missing").2.2 rfl

/-- Claim C1 (divergent behavior at the failing input): for a `file://`
URL whose conversion to a filesystem path fails (here a non-local host),
`parse_url_opts` panics through `url.to_file_path().unwrap()` instead of
returning a location error; for a URL with an unrecognized scheme it does
return the invalid-table-location error. -/
theorem parse_url_opts_file_url_panics :
    parse_url_opts toFilePathModel newWithPfxModel fromUrlPathModel fileHostUrl [] =
      .panicked ∧
    parse_url_opts toFilePathModel newWithPfxModel fromUrlPathModel otherSchemeUrl [] =
      .err (.invalidTableLocation "s3://bucket/table") := by
  constructor
  · decide
  · decide

/-- Claim C4: every non-listing operation of `DeltaIOStorageBackend`
returns exactly the result of the same operation on its inner store while
dispatching one unit of work onto the isolated runtime, and the three
listing operations are delegated directly to the inner store with no
dispatch onto the isolated runtime. -/
theorem delta_io_storage_backend_spec (τ : OpTypes) (b : DeltaIOStorageBackend τ)
    (l : τ.P) (pl : τ.PL) (po : τ.PO) (go : τ.GO) (rg : Nat × Nat) (mo : τ.MO)
    (pfx : Option τ.P) (off src dst : τ.P) :
    b.put l pl = (b.inner.put l pl, 1) ∧
    b.put_opts l pl po = (b.inner.put_opts l pl po, 1) ∧
    b.get l = (b.inner.get l, 1) ∧
    b.get_opts l go = (b.inner.get_opts l go, 1) ∧
    b.get_range l rg = (b.inner.get_range l rg, 1) ∧
    b.head l = (b.inner.head l, 1) ∧
    b.delete l = (b.inner.delete l, 1) ∧
    b.copy src dst = (b.inner.copy src dst, 1) ∧
    b.copy_if_not_exists src dst = (b.inner.copy_if_not_exists src dst, 1) ∧
    b.rename_if_not_exists src dst = (b.inner.rename_if_not_exists src dst, 1) ∧
    b.put_multipart l = (b.inner.put_multipart l, 1) ∧
    b.put_multipart_opts l mo = (b.inner.put_multipart_opts l mo, 1) ∧
    b.list pfx = (b.inner.list pfx, 0) ∧
    b.list_with_offset pfx off = (b.inner.list_with_offset pfx off, 0) ∧
    b.list_with_delimiter pfx = (b.inner.list_with_delimiter pfx, 0) := by
  simp only [DeltaIOStorageBackend.put, DeltaIOStorageBackend.put_opts,
    DeltaIOStorageBackend.get, DeltaIOStorageBackend.get_opts,
    DeltaIOStorageBackend.get_range, DeltaIOStorageBackend.head,
    DeltaIOStorageBackend.delete, DeltaIOStorageBackend.copy,
    DeltaIOStorageBackend.copy_if_not_exists, DeltaIOStorageBackend.rename_if_not_exists,
    DeltaIOStorageBackend.put_multipart, DeltaIOStorageBackend.put_multipart_opts,
    DeltaIOStorageBackend.list, DeltaIOStorageBackend.list_with_offset,
    DeltaIOStorageBackend.list_with_delimiter, spawn_io_rt, spawn_io_rt_from_to,
    joinOutcome_eq]
  tauto

/-- Claim C7: for every non-negative `i64` version `v`,
`commit_uri_from_version v` is `_delta_log/<v zero-padded to 20 digits>.json`,
the padded segment has exactly 20 characters, all of them digits; in
particular versions 0 and 1 give the two expected paths. -/
theorem commit_uri_from_version_spec :
    (∀ v : Int, 0 ≤ v → v < 2 ^ 63 →
      commit_uri_from_version v =
        "_delta_log/" ++ (leftPadZeros 20 (natRepr v.toNat) ++ ".json") ∧
      (leftPadZeros 20 (natRepr v.toNat)).length = 20 ∧
      ∀ c ∈ (leftPadZeros 20 (natRepr v.toNat)).data, c.isDigit = true) ∧
    commit_uri_from_version 0 = "_delta_log/00000000000000000000.json" ∧
    commit_uri_from_version 1 = "_delta_log/00000000000000000001.json" := by
  refine ⟨?_, by decide, by decide⟩
  intro v h0 hlt
  have hv : ¬ v < 0 := by omega
  have hpow : ((2 : Int) ^ 63) = 9223372036854775808 := by norm_num
  rw [hpow] at hlt
  have hn : v.toNat < 10 ^ 19 := by
    have h10 : (10 : Nat) ^ 19 = 10000000000000000000 := by norm_num
    rw [h10]
    omega
  have hlen : (natRepr v.toNat).length ≤ 19 := natRepr_length_le hn
  refine ⟨?_, leftPadZeros_length (by omega), leftPadZeros_digits (natRepr_digits _)⟩
  rw [commit_uri_eq]
  simp [fmtInt20, hv]

/-- Witness for C7 at version 3. -/
theorem commit_uri_from_version_spec_witness :
    commit_uri_from_version 3 = "_delta_log/00000000000000000003.json" := by
  rw [(commit_uri_from_version_spec.1 3 (by norm_num) (by norm_num)).1]
  decide

/-- Claim C10: `commit_uri_from_version` is total over the `i64` range and
always yields a `_delta_log/<segment>.json` path; for negative versions
the minus sign counts toward the 20-character zero-padded width, so the
segment is `-` followed by exactly 19 digit characters (fewer than 20
digits), as at version -1. -/
theorem commit_uri_from_version_i64_spec :
    (∀ v : Int, -(2 ^ 63) ≤ v → v < 2 ^ 63 →
      ∃ s : String, commit_uri_from_version v = "_delta_log/" ++ (s ++ ".json")) ∧
    (∀ v : Int, -(2 ^ 63) ≤ v → v < 0 →
      commit_uri_from_version v =
        "_delta_log/" ++ (("-" ++ leftPadZeros 19 (natRepr (-v).toNat)) ++ ".json") ∧
      (leftPadZeros 19 (natRepr (-v).toNat)).length = 19 ∧
      (∀ c ∈ (leftPadZeros 19 (natRepr (-v).toNat)).data, c.isDigit = true) ∧
      Char.isDigit '-' = false) ∧
    commit_uri_from_version (-1) = "_delta_log/-0000000000000000001.json" := by
  refine ⟨?_, ?_, by decide⟩
  · intro v _ _
    exact ⟨fmtInt20 v, commit_uri_eq v⟩
  · intro v hlo hneg
    have hpow : ((2 : Int) ^ 63) = 9223372036854775808 := by norm_num
    rw [hpow] at hlo
    have hn : (-v).toNat < 10 ^ 19 := by
      have h10 : (10 : Nat) ^ 19 = 10000000000000000000 := by norm_num
      rw [h10]
      omega
    have hlen : (natRepr (-v).toNat).length ≤ 19 := natRepr_length_le hn
    refine ⟨?_, leftPadZeros_length (by omega), leftPadZeros_digits (natRepr_digits _),
      by decide⟩
    rw [commit_uri_eq]
    simp [fmtInt20, hneg]

/-- Witness for C10 at version -5. -/
theorem commit_uri_from_version_i64_spec_witness :
    commit_uri_from_version (-5) = "_delta_log/-0000000000000000005.json" := by
  rw [(commit_uri_from_version_i64_spec.2.1 (-5) (by norm_num) (by norm_num)).1]
  decide

/-- Counterexample to claim C3 as stated: with `max_retries="abc"`,
`parse_retry_config` fails with the bare `ParseIntError` display text,
whose message contains neither the offending key `max_retries` nor the
raw value `abc`. -/
theorem parse_retry_config_claim_cex :
    parse_retry_config (fun _ => (none : Option Nat)) (fun _ => (none : Option Nat))
        (⟨0, 0, 0, 0, 0⟩ : RetryConfig Nat Nat) [("max_retries", "abc")] =
      .error "invalid digit found in string" ∧
    ¬ List.IsInfix "max_retries".data "invalid digit found in string".data ∧
    ¬ List.IsInfix "abc".data "invalid digit found in string".data := by
  refine ⟨rfl, by decide, by decide⟩

/-- Claim C3 (amended): a present retry-policy key whose value fails to
parse fails the whole parse — for the three duration keys the error
message quotes the raw value (but not the key), while for `max_retries`
the message is the `ParseIntError` display text and for
`backoff_config.base` the `ParseFloatError` display text ("cannot parse
float from empty string" for an empty value, "invalid float literal"
otherwise), naming neither key nor value; a key that is absent leaves
the corresponding field at its backend-default value. -/
theorem parse_retry_config_amended (Dur Flt : Type) (pd : String → Option Dur)
    (pf : String → Option Flt) (dflt : RetryConfig Dur Flt) (opts : StorageOptions) :
    (∀ cfg, parse_retry_config pd pf dflt opts = .ok cfg →
      (List.lookup "max_retries" opts = none → cfg.max_retries = dflt.max_retries) ∧
      (List.lookup "retry_timeout" opts = none → cfg.retry_timeout = dflt.retry_timeout) ∧
      (List.lookup "backoff_config.init_backoff" opts = none →
        cfg.init_backoff = dflt.init_backoff) ∧
      (List.lookup "backoff_config.max_backoff" opts = none →
        cfg.max_backoff = dflt.max_backoff) ∧
      (List.lookup "backoff_config.base" opts = none → cfg.base = dflt.base)) ∧
    (∀ v e, List.lookup "max_retries" opts = some v → parseUsizeE v = .error e →
      parse_retry_config pd pf dflt opts = .error e) ∧
    (∀ v mr, List.lookup "retry_timeout" opts = some v → pd v = none →
      parseNumField dflt.max_retries opts "max_retries" = .ok mr →
      parse_retry_config pd pf dflt opts =
        .error ("failed to parse \"" ++ v ++ "\" as Duration")) ∧
    (∀ v mr rt, List.lookup "backoff_config.init_backoff" opts = some v → pd v = none →
      parseNumField dflt.max_retries opts "max_retries" = .ok mr →
      parseDurField pd dflt.retry_timeout opts "retry_timeout" = .ok rt →
      parse_retry_config pd pf dflt opts =
        .error ("failed to parse \"" ++ v ++ "\" as Duration")) ∧
    (∀ v mr rt ib, List.lookup "backoff_config.max_backoff" opts = some v → pd v = none →
      parseNumField dflt.max_retries opts "max_retries" = .ok mr →
      parseDurField pd dflt.retry_timeout opts "retry_timeout" = .ok rt →
      parseDurField pd dflt.init_backoff opts "backoff_config.init_backoff" = .ok ib →
      parse_retry_config pd pf dflt opts =
        .error ("failed to parse \"" ++ v ++ "\" as Duration")) ∧
    (∀ v mr rt ib mb, List.lookup "backoff_config.base" opts = some v → pf v = none →
      parseNumField dflt.max_retries opts "max_retries" = .ok mr →
      parseDurField pd dflt.retry_timeout opts "retry_timeout" = .ok rt →
      parseDurField pd dflt.init_backoff opts "backoff_config.init_backoff" = .ok ib →
      parseDurField pd dflt.max_backoff opts "backoff_config.max_backoff" = .ok mb →
      parse_retry_config pd pf dflt opts = .error (parseFloatErrMsg v)) := by
  refine ⟨?_, ?_, ?_, ?_, ?_, ?_⟩
  · intro cfg h
    unfold parse_retry_config at h
    cases h1 : parseNumField dflt.max_retries opts "max_retries" with
    | error e => rw [h1] at h; simp at h
    | ok mr =>
    rw [h1] at h
    cases h2 : parseDurField pd dflt.retry_timeout opts "retry_timeout" with
    | error e => rw [h2] at h; simp at h
    | ok rt =>
    rw [h2] at h
    cases h3 : parseDurField pd dflt.init_backoff opts "backoff_config.init_backoff" with
    | error e => rw [h3] at h; simp at h
    | ok ib =>
    rw [h3] at h
    cases h4 : parseDurField pd dflt.max_backoff opts "backoff_config.max_backoff" with
    | error e => rw [h4] at h; simp at h
    | ok mb =>
    rw [h4] at h
    cases h5 : parseFltField pf dflt.base opts with
    | error e => rw [h5] at h; simp at h
    | ok bs =>
    rw [h5] at h
    simp only [Except.ok.injEq] at h
    subst h
    refine ⟨?_, ?_, ?_, ?_, ?_⟩ <;> intro hnone
    · simp [parseNumField, hnone] at h1
      simp [h1]
    · simp [parseDurField, hnone] at h2
      simp [h2]
    · simp [parseDurField, hnone] at h3
      simp [h3]
    · simp [parseDurField, hnone] at h4
      simp [h4]
    · simp [parseFltField, hnone] at h5
      simp [h5]
  · intro v e hv he
    unfold parse_retry_config
    simp [parseNumField, hv, he]
  · intro v mr hv hpd hmr
    unfold parse_retry_config
    rw [hmr]
    simp [parseDurField, hv, hpd]
  · intro v mr rt hv hpd hmr hrt
    unfold parse_retry_config
    rw [hmr, hrt]
    simp [parseDurField, hv, hpd]
  · intro v mr rt ib hv hpd hmr hrt hib
    unfold parse_retry_config
    rw [hmr, hrt, hib]
    simp [parseDurField, hv, hpd]
  · intro v mr rt ib mb hv hpf hmr hrt hib hmb
    unfold parse_retry_config
    rw [hmr, hrt, hib, hmb]
    simp [parseFltField, hv, hpf]

/-- Witness for C3 (amended): an unparsable `retry_timeout` fails the
whole parse with the message quoting the raw value, and an unparsable
`backoff_config.base` fails with the `ParseFloatError` display text of
the respective kind — empty input versus invalid literal. -/
theorem parse_retry_config_amended_witness :
    (parse_retry_config (fun _ => (none : Option Nat)) (fun _ => (none : Option Nat))
        (⟨7, 8, 9, 10, 11⟩ : RetryConfig Nat Nat) [("retry_timeout", "zzz")] =
      .error ("failed to parse \"" ++ "zzz" ++ "\" as Duration")) ∧
    (parse_retry_config (fun _ => (none : Option Nat)) (fun _ => (none : Option Nat))
        (⟨7, 8, 9, 10, 11⟩ : RetryConfig Nat Nat) [("backoff_config.base", "")] =
      .error "cannot parse float from empty string") ∧
    (parse_retry_config (fun _ => (none : Option Nat)) (fun _ => (none : Option Nat))
        (⟨7, 8, 9, 10, 11⟩ : RetryConfig Nat Nat) [("backoff_config.base", "xyz")] =
      .error "invalid float literal") :=
  ⟨(parse_retry_config_amended Nat Nat (fun _ => none) (fun _ => none)
      ⟨7, 8, 9, 10, 11⟩ [("retry_timeout", "zzz")]).2.2.1 "zzz" 7 rfl rfl rfl,
    (parse_retry_config_amended Nat Nat (fun _ => none) (fun _ => none)
      ⟨7, 8, 9, 10, 11⟩ [("backoff_config.base", "")]).2.2.2.2.2 "" 7 8 9 10
      rfl rfl rfl rfl rfl rfl,
    (parse_retry_config_amended Nat Nat (fun _ => none) (fun _ => none)
      ⟨7, 8, 9, 10, 11⟩ [("backoff_config.base", "xyz")]).2.2.2.2.2 "xyz" 7 8 9 10
      rfl rfl rfl rfl rfl rfl⟩
